import Mathlib

/-
  Verification development for the dual-number forward-mode automatic
  differentiation value type of the dual_autodiff package.

  The numeric carrier of the model is exact arithmetic: the rationals for
  the arithmetic, comparison and serialization operations, and the reals
  for the transcendental and power operations.  Fallible operations return
  an Except value carrying a typed error kind, mirroring the typed failure
  design of the specification (TypeKind, DomainKind, DivisionByZeroKind).
-/

namespace DualAutodiff

/-- Modelled from the spec: the three error kinds of the error-handling
design (section 7) of dual_autodiff, whose dual.py module is not present
in the sources: TypeKind (a non-numeric constructor argument), DomainKind
(a non-finite constructor argument or an out-of-domain input to log, sqrt,
acosh, atanh or a power requiring a logarithm of a non-positive value),
and DivisionByZeroKind (a divisor whose real part is zero). -/
inductive ErrKind where
  | typeKind
  | domainKind
  | divisionByZeroKind
deriving DecidableEq, Repr

/-- Modelled from the spec: the values a caller can pass to the Dual
constructor of dual.py (absent from the sources).  A Python argument is
either a finite number (an integer or a finite float, represented exactly
as a rational), one of the non-finite floats nan, inf and -inf, or some
non-numeric value such as a string. -/
inductive PyVal where
  | fin (q : ℚ)
  | nan
  | inf
  | ninf
  | nonNumeric
deriving DecidableEq, Repr

/-- Decidable equality of Except results, so that concrete runs of the
fallible operations can be checked by evaluation. -/
instance {ε α : Type} [DecidableEq ε] [DecidableEq α] :
    DecidableEq (Except ε α)
  | .ok a, .ok b =>
    if h : a = b then .isTrue (by rw [h]) else .isFalse (by simp [h])
  | .ok _, .error _ => .isFalse (by simp)
  | .error _, .ok _ => .isFalse (by simp)
  | .error a, .error b =>
    if h : a = b then .isTrue (by rw [h]) else .isFalse (by simp [h])

/-- A PyVal is numeric when it is an integer or a float, finite or not. -/
def PyVal.isNumeric : PyVal → Bool
  | .nonNumeric => false
  | _ => true

/-- A PyVal is finite when it is a number other than nan, inf and -inf. -/
def PyVal.isFinite : PyVal → Bool
  | .fin _ => true
  | _ => false

/-- Modelled from the spec: the Dual value of dual.py (absent from the
sources) — an immutable pair of a real (function value) component and a
dual (derivative) component, both finite; the exact-rational carrier makes
the finiteness invariant of section 3 hold by construction. -/
structure Dual where
  real : ℚ
  dual : ℚ
deriving DecidableEq, Repr

/-- Modelled from the spec: the validating constructor of dual.py (absent
from the sources), section 4.1.  It rejects a non-numeric argument with
TypeKind, rejects a nan or infinite argument with DomainKind, and on
success stores both argument values unchanged. -/
def Dual.init : PyVal → PyVal → Except ErrKind Dual
  | .fin r, .fin d => .ok ⟨r, d⟩
  | .nonNumeric, _ => .error .typeKind
  | _, .nonNumeric => .error .typeKind
  | _, _ => .error .domainKind

/-- Modelled from the spec: Dual addition, section 4.2. -/
def Dual.add (a b : Dual) : Dual := ⟨a.real + b.real, a.dual + b.dual⟩

/-- Modelled from the spec: Dual subtraction, section 4.2. -/
def Dual.sub (a b : Dual) : Dual := ⟨a.real - b.real, a.dual - b.dual⟩

/-- Modelled from the spec: unary negation, section 4.2. -/
def Dual.neg (a : Dual) : Dual := ⟨-a.real, -a.dual⟩

/-- Modelled from the spec: Dual multiplication (product rule),
section 4.2. -/
def Dual.mul (a b : Dual) : Dual :=
  ⟨a.real * b.real, a.real * b.dual + a.dual * b.real⟩

/-- Modelled from the spec: true division of two Duals (quotient rule),
section 4.2; fails with DivisionByZeroKind exactly when the real part of
the divisor is zero. -/
def Dual.div (a b : Dual) : Except ErrKind Dual :=
  if b.real = 0 then .error .divisionByZeroKind
  else .ok ⟨a.real / b.real, (a.dual * b.real - a.real * b.dual) / b.real ^ 2⟩

/-- Modelled from the spec: true division of a Dual by a scalar, treating
the scalar s as the pair (s, 0), section 4.2. -/
def Dual.divScalar (a : Dual) (s : ℚ) : Except ErrKind Dual :=
  Dual.div a ⟨s, 0⟩

/-- Modelled from the spec: reflected scalar true division s / a, treating
s as (s, 0) and applying the quotient rule with a as divisor,
section 4.2. -/
def Dual.rdivScalar (s : ℚ) (a : Dual) : Except ErrKind Dual :=
  Dual.div ⟨s, 0⟩ a

/-- Modelled from the spec: floor division of two Duals, section 4.2 —
true division followed by the floor of the real part only, the dual part
kept unchanged; the zero-divisor failure is that of true division. -/
def Dual.floordiv (a b : Dual) : Except ErrKind Dual :=
  (Dual.div a b).map fun q => ⟨(⌊q.real⌋ : ℚ), q.dual⟩

/-- Modelled from the spec: floor division of a Dual by a scalar,
section 4.2. -/
def Dual.floordivScalar (a : Dual) (s : ℚ) : Except ErrKind Dual :=
  Dual.floordiv a ⟨s, 0⟩

/-- Modelled from the spec: reflected scalar floor division s // a,
section 4.2 together with its floor-division rule. -/
def Dual.rfloordivScalar (s : ℚ) (a : Dual) : Except ErrKind Dual :=
  Dual.floordiv ⟨s, 0⟩ a

/-- Modelled from the spec: structural equality of Duals, section 4.4 —
both components compared exactly. -/
def Dual.beq (a b : Dual) : Bool :=
  decide (a.real = b.real) && decide (a.dual = b.dual)

/-- Modelled from the spec: inequality, the negation of structural
equality, section 4.4. -/
def Dual.bne (a b : Dual) : Bool := !(Dual.beq a b)

/-- Modelled from the spec: strict less-than on Duals, section 4.4 —
ordering compares the real components only. -/
def Dual.lt (a b : Dual) : Bool := decide (a.real < b.real)

/-- Modelled from the spec: less-than-or-equal on Duals, section 4.4. -/
def Dual.le (a b : Dual) : Bool := decide (a.real ≤ b.real)

/-- Modelled from the spec: strict greater-than on Duals, section 4.4. -/
def Dual.gt (a b : Dual) : Bool := decide (b.real < a.real)

/-- Modelled from the spec: greater-than-or-equal on Duals,
section 4.4. -/
def Dual.ge (a b : Dual) : Bool := decide (b.real ≤ a.real)

/-- Modelled from the spec: mixed Dual/scalar strict less-than — the
scalar is compared as its bare value against the real component,
section 4.4. -/
def Dual.ltScalar (a : Dual) (s : ℚ) : Bool := decide (a.real < s)

/-- Modelled from the spec: mixed Dual/scalar less-than-or-equal,
section 4.4. -/
def Dual.leScalar (a : Dual) (s : ℚ) : Bool := decide (a.real ≤ s)

/-- Modelled from the spec: mixed Dual/scalar strict greater-than,
section 4.4. -/
def Dual.gtScalar (a : Dual) (s : ℚ) : Bool := decide (s < a.real)

/-- Modelled from the spec: mixed Dual/scalar greater-than-or-equal,
section 4.4. -/
def Dual.geScalar (a : Dual) (s : ℚ) : Bool := decide (s ≤ a.real)

/-- Modelled from the spec: the serialization record of section 4.6 — a
record with exactly the two fields real and dual and nothing else; each
field holds a Python value so that malformed records are expressible. -/
structure DualDict where
  real : PyVal
  dual : PyVal
deriving DecidableEq, Repr

/-- Modelled from the spec: to_dict of section 4.6 — a record holding the
current numeric values of the two components, no renaming and no extra
metadata. -/
def Dual.to_dict (d : Dual) : DualDict := ⟨.fin d.real, .fin d.dual⟩

/-- Modelled from the spec: from_dict of section 4.6 — deserialization
goes through the validated constructor, so the same TypeKind and
DomainKind failures apply to malformed or non-finite records. -/
def Dual.from_dict (r : DualDict) : Except ErrKind Dual :=
  Dual.init r.real r.dual

/-- Modelled from the spec: the mathematical inverse hyperbolic cosine,
through its standard closed form, used for the real part of acosh in
section 4.3. -/
noncomputable def acoshFn (x : ℝ) : ℝ := Real.log (x + Real.sqrt (x ^ 2 - 1))

/-- Modelled from the spec: the mathematical inverse hyperbolic tangent,
through its standard closed form, used for the real part of atanh in
section 4.3. -/
noncomputable def atanhFn (x : ℝ) : ℝ := Real.log ((1 + x) / (1 - x)) / 2

/-- Modelled from the spec: the Dual value over the exact reals, the
carrier used for the transcendental and power operations of dual.py
(absent from the sources), sections 4.2 and 4.3. -/
structure DualR where
  real : ℝ
  dual : ℝ

/-- Modelled from the spec: the natural logarithm on Duals, section 4.3 —
real part ln(real), dual part dual/real, failing with DomainKind exactly
when the real part is nonpositive. -/
noncomputable def DualR.log (a : DualR) : Except ErrKind DualR :=
  if a.real ≤ 0 then .error .domainKind
  else .ok ⟨Real.log a.real, a.dual / a.real⟩

/-- Modelled from the spec: the square root on Duals, section 4.3 — real
part the square root of real, dual part dual divided by twice that square
root, failing with DomainKind exactly when the real part is negative. -/
noncomputable def DualR.sqrt (a : DualR) : Except ErrKind DualR :=
  if a.real < 0 then .error .domainKind
  else .ok ⟨Real.sqrt a.real, a.dual / (2 * Real.sqrt a.real)⟩

/-- Modelled from the spec: the inverse hyperbolic cosine on Duals,
section 4.3 — real part acosh(real), dual part dual divided by the square
root of real squared minus one, failing with DomainKind exactly when the
real part is at most one. -/
noncomputable def DualR.acosh (a : DualR) : Except ErrKind DualR :=
  if a.real ≤ 1 then .error .domainKind
  else .ok ⟨acoshFn a.real, a.dual / Real.sqrt (a.real ^ 2 - 1)⟩

/-- Modelled from the spec: the inverse hyperbolic tangent on Duals,
section 4.3 — real part atanh(real), dual part dual divided by one minus
real squared, failing with DomainKind exactly when the absolute value of
the real part is at least one. -/
noncomputable def DualR.atanh (a : DualR) : Except ErrKind DualR :=
  if 1 ≤ |a.real| then .error .domainKind
  else .ok ⟨atanhFn a.real, a.dual / (1 - a.real ^ 2)⟩

/-- Modelled from the spec: power with a Dual exponent, section 4.2 — the
generalized rule, whose dual part multiplies the value by
b.dual * ln(a.real) + b.real * a.dual / a.real; it requires a logarithm,
so a nonpositive base real part delegates to the same DomainKind failure
as log. -/
noncomputable def DualR.powDual (a b : DualR) : Except ErrKind DualR :=
  if a.real ≤ 0 then .error .domainKind
  else
    .ok ⟨a.real ^ b.real,
         a.real ^ b.real * (b.dual * Real.log a.real + b.real * a.dual / a.real)⟩

/-- Modelled from the spec: power with a scalar exponent p, section 4.2 —
the power rule pair (real ^ p, p * real ^ (p - 1) * dual); a nonpositive
base real part combined with a non-integer exponent requires a logarithm
and delegates to the same DomainKind failure as log. -/
noncomputable def DualR.powScalar (a : DualR) (p : ℝ) : Except ErrKind DualR :=
  @ite _ (a.real ≤ 0 ∧ ¬ ∃ n : ℤ, p = (n : ℝ)) (Classical.propDecidable _)
    (.error .domainKind)
    (.ok ⟨a.real ^ p, p * a.real ^ (p - 1) * a.dual⟩)

/-- C1: every Dual observable through the public API has finite
components.  The validating constructor accepts exactly the finite numeric
argument pairs and fails explicitly otherwise, and the components a Dual
exposes (here through its serialization) are always finite; in the
exact-arithmetic model every stored component is a rational, so every
operation that returns a Dual returns one with finite components, and the
fallible operations fail with an explicit error rather than silently
returning a non-finite component. -/
theorem C1_finiteness_invariant :
    (∀ x y d, Dual.init x y = .ok d → x.isFinite ∧ y.isFinite) ∧
    (∀ x y, ¬ (x.isFinite ∧ y.isFinite) → ∃ e, Dual.init x y = .error e) ∧
    (∀ d : Dual, (Dual.to_dict d).real.isFinite ∧ (Dual.to_dict d).dual.isFinite) := by
  refine ⟨?_, ?_, ?_⟩
  · intro x y d h
    cases x <;> cases y <;> simp_all [Dual.init, PyVal.isFinite]
  · intro x y h
    cases x <;> cases y <;> simp_all [Dual.init, PyVal.isFinite]
  · intro d
    exact ⟨rfl, rfl⟩

/-- Witness for C1 at concrete inputs: a finite pair is accepted and an
infinite slot is rejected with an explicit error. -/
theorem C1_finiteness_invariant_witness :
    (PyVal.isFinite (.fin 1) ∧ PyVal.isFinite (.fin 2)) ∧
    (∃ e, Dual.init .inf (.fin 2) = .error e) :=
  ⟨C1_finiteness_invariant.1 (.fin 1) (.fin 2) ⟨1, 2⟩ rfl,
   C1_finiteness_invariant.2.1 .inf (.fin 2) (by decide)⟩

/-- C2: true division fails with DivisionByZeroKind exactly when the real
part of the divisor is zero, regardless of the dual part of the divisor,
and otherwise returns the quotient-rule pair; the scalar-divisor and
reflected-scalar forms treat the scalar as the pair (s, 0) and follow the
same rule, failing exactly when their divisor has a zero real part. -/
theorem C2_true_division (a b : Dual) (s : ℚ) :
    (Dual.div a b = .error .divisionByZeroKind ↔ b.real = 0) ∧
    (b.real ≠ 0 →
      Dual.div a b =
        .ok ⟨a.real / b.real, (a.dual * b.real - a.real * b.dual) / b.real ^ 2⟩) ∧
    (Dual.divScalar a s = Dual.div a ⟨s, 0⟩) ∧
    (Dual.rdivScalar s a = Dual.div ⟨s, 0⟩ a) ∧
    (Dual.divScalar a s = .error .divisionByZeroKind ↔ s = 0) ∧
    (Dual.rdivScalar s b = .error .divisionByZeroKind ↔ b.real = 0) := by
  refine ⟨?_, ?_, rfl, rfl, ?_, ?_⟩
  · by_cases h : b.real = 0 <;> simp [Dual.div, h]
  · intro h
    simp [Dual.div, h]
  · by_cases h : s = 0 <;> simp [Dual.divScalar, Dual.div, h]
  · by_cases h : b.real = 0 <;> simp [Dual.rdivScalar, Dual.div, h]

/-- Witness for C2 at the concrete quotient of the test suite:
Dual(10,5) / Dual(2,1). -/
theorem C2_true_division_witness :
    (2 : ℚ) ≠ 0 ∧
    Dual.div ⟨10, 5⟩ ⟨2, 1⟩ = .ok ⟨10 / 2, (5 * 2 - 10 * 1) / 2 ^ 2⟩ :=
  ⟨by norm_num, (C2_true_division ⟨10, 5⟩ ⟨2, 1⟩ 0).2.1 (by norm_num)⟩

/-- C3: floor division is true division followed by the floor of the real
part only, the dual part of the result being exactly the true-division
dual part; it fails with DivisionByZeroKind exactly when true division
does, the scalar-divisor form treats the scalar as (s, 0), and in
particular Dual(10,5) // 2 = Dual(5, 5/2). -/
theorem C3_floor_division (a b : Dual) (s : ℚ) :
    (∀ q, Dual.div a b = .ok q →
      Dual.floordiv a b = .ok ⟨(⌊q.real⌋ : ℚ), q.dual⟩) ∧
    (Dual.floordiv a b = .error .divisionByZeroKind ↔ b.real = 0) ∧
    (Dual.floordivScalar a s = Dual.floordiv a ⟨s, 0⟩) ∧
    (Dual.floordivScalar ⟨10, 5⟩ 2 = .ok ⟨5, 5 / 2⟩) := by
  refine ⟨?_, ?_, rfl, ?_⟩
  · intro q h
    simp [Dual.floordiv, h, Except.map]
  · by_cases h : b.real = 0 <;> simp [Dual.floordiv, Dual.div, h, Except.map]
  · norm_num [Dual.floordivScalar, Dual.floordiv, Dual.div, Except.map]

/-- Witness for C3 at the concrete quotient Dual(10,5) // Dual(2,1). -/
theorem C3_floor_division_witness :
    Dual.div ⟨10, 5⟩ ⟨2, 1⟩ = .ok ⟨5, 0⟩ ∧
    Dual.floordiv ⟨10, 5⟩ ⟨2, 1⟩ = .ok ⟨(⌊(5 : ℚ)⌋ : ℚ), 0⟩ := by
  have h : Dual.div ⟨10, 5⟩ ⟨2, 1⟩ = .ok ⟨5, 0⟩ := by norm_num [Dual.div]
  exact ⟨h, (C3_floor_division ⟨10, 5⟩ ⟨2, 1⟩ 0).1 ⟨5, 0⟩ h⟩

/-- C4: the constructor fails with TypeKind exactly when an argument is
not numeric, fails with DomainKind exactly when both arguments are numeric
but one is nan or infinite, and on a finite numeric pair stores both
values unchanged. -/
theorem C4_constructor_validation (x y : PyVal) (r d : ℚ) :
    (Dual.init x y = .error .typeKind ↔ ¬ (x.isNumeric ∧ y.isNumeric)) ∧
    (Dual.init x y = .error .domainKind ↔
      (x.isNumeric ∧ y.isNumeric) ∧ ¬ (x.isFinite ∧ y.isFinite)) ∧
    (Dual.init (.fin r) (.fin d) = .ok ⟨r, d⟩) := by
  refine ⟨?_, ?_, rfl⟩ <;>
    cases x <;> cases y <;> simp [Dual.init, PyVal.isNumeric, PyVal.isFinite]

/-- Witness for C4 at concrete inputs: a string argument gives TypeKind,
a nan argument gives DomainKind, and Dual(5, 3) stores 5 and 3. -/
theorem C4_constructor_validation_witness :
    Dual.init .nonNumeric (.fin 3) = .error .typeKind ∧
    Dual.init .nan (.fin 3) = .error .domainKind ∧
    Dual.init (.fin 5) (.fin 3) = .ok ⟨5, 3⟩ :=
  ⟨(C4_constructor_validation .nonNumeric (.fin 3) 0 0).1.mpr (by decide),
   (C4_constructor_validation .nan (.fin 3) 0 0).2.1.mpr (by decide),
   (C4_constructor_validation .nan (.fin 3) 5 3).2.2⟩

/-- C8: to_dict produces a record whose two fields hold the current
component values and nothing else, from_dict of that record restores an
equal Dual, and from_dict goes through the validated constructor, so
malformed or non-finite records fail exactly as direct construction
does. -/
theorem C8_serialization_roundtrip (d : Dual) (x y : PyVal) :
    (Dual.to_dict d = ⟨.fin d.real, .fin d.dual⟩) ∧
    (Dual.from_dict (Dual.to_dict d) = .ok d) ∧
    (Dual.from_dict ⟨x, y⟩ = Dual.init x y) :=
  ⟨rfl, rfl, rfl⟩

/-- Witness for C8 at the concrete Dual(5, 3) of the test suite. -/
theorem C8_serialization_roundtrip_witness :
    Dual.from_dict (Dual.to_dict ⟨5, 3⟩) = .ok ⟨5, 3⟩ :=
  (C8_serialization_roundtrip ⟨5, 3⟩ .nan .nan).2.1

/-- C9: equality of Duals is structural on both components, inequality is
its negation, each ordering operator compares the real components only,
and the mixed Dual/scalar ordering forms compare the real component
against the bare scalar value. -/
theorem C9_comparison_semantics (a b : Dual) (s : ℚ) :
    (Dual.beq a b = true ↔ a.real = b.real ∧ a.dual = b.dual) ∧
    (Dual.bne a b = true ↔ ¬ (a.real = b.real ∧ a.dual = b.dual)) ∧
    (Dual.lt a b = true ↔ a.real < b.real) ∧
    (Dual.le a b = true ↔ a.real ≤ b.real) ∧
    (Dual.gt a b = true ↔ b.real < a.real) ∧
    (Dual.ge a b = true ↔ b.real ≤ a.real) ∧
    (Dual.ltScalar a s = true ↔ a.real < s) ∧
    (Dual.leScalar a s = true ↔ a.real ≤ s) ∧
    (Dual.gtScalar a s = true ↔ s < a.real) ∧
    (Dual.geScalar a s = true ↔ s ≤ a.real) := by
  simp only [Dual.beq, Dual.bne, Dual.lt, Dual.le, Dual.gt, Dual.ge,
        Dual.ltScalar, Dual.leScalar, Dual.gtScalar, Dual.geScalar,
        Bool.and_eq_true, Bool.not_eq_true', Bool.and_eq_false_iff,
        decide_eq_true_eq, decide_eq_false_iff_not, not_and_or]
  tauto

/-- Witness for C9 at the concrete comparisons of the test suite. -/
theorem C9_comparison_semantics_witness :
    Dual.beq ⟨5, 3⟩ ⟨5, 3⟩ = true ∧ Dual.lt ⟨5, 3⟩ ⟨6, 4⟩ = true :=
  ⟨(C9_comparison_semantics ⟨5, 3⟩ ⟨5, 3⟩ 0).1.mpr (by norm_num),
   (C9_comparison_semantics ⟨5, 3⟩ ⟨6, 4⟩ 0).2.2.1.mpr (by norm_num)⟩

/-- C10: reflected scalar floor division s // a is the reflected true
division with the floor applied to the real part only and the
true-division dual part kept unchanged; it fails with DivisionByZeroKind
when the real part of the divisor is zero, and in particular
20 // Dual(5, 2) = Dual(4, -8/5). -/
theorem C10_reflected_floor_division (s : ℚ) (a : Dual) :
    (∀ q, Dual.rdivScalar s a = .ok q →
      Dual.rfloordivScalar s a = .ok ⟨(⌊q.real⌋ : ℚ), q.dual⟩) ∧
    (a.real = 0 → Dual.rfloordivScalar s a = .error .divisionByZeroKind) ∧
    (Dual.rfloordivScalar 20 ⟨5, 2⟩ = .ok ⟨4, -8 / 5⟩) := by
  refine ⟨?_, ?_, ?_⟩
  · intro q h
    simp only [Dual.rdivScalar] at h
    simp [Dual.rfloordivScalar, Dual.floordiv, h, Except.map]
  · intro h
    simp [Dual.rfloordivScalar, Dual.floordiv, Dual.div, h, Except.map]
  · norm_num [Dual.rfloordivScalar, Dual.floordiv, Dual.div, Except.map]

/-- Witness for C10 at the concrete quotient 20 // Dual(5, 2) of the test
suite, and at a zero divisor. -/
theorem C10_reflected_floor_division_witness :
    Dual.rfloordivScalar 20 ⟨5, 2⟩ = .ok ⟨(⌊(4 : ℚ)⌋ : ℚ), -8 / 5⟩ ∧
    Dual.rfloordivScalar 1 ⟨0, 3⟩ = .error .divisionByZeroKind := by
  have h : Dual.rdivScalar 20 ⟨5, 2⟩ = .ok ⟨4, -8 / 5⟩ := by
    norm_num [Dual.rdivScalar, Dual.div]
  exact ⟨(C10_reflected_floor_division 20 ⟨5, 2⟩).1 ⟨4, -8 / 5⟩ h,
         (C10_reflected_floor_division 1 ⟨0, 3⟩).2.1 rfl⟩

/-- C5: the transcendental domain guards — log fails with DomainKind
exactly when the real part is nonpositive, sqrt exactly when it is
negative, acosh exactly when it is at most one, atanh exactly when its
absolute value is at least one; in every other case the call returns the
pair of the function value at the real part and the derivative of the
function there times the dual part. -/
theorem C5_transcendental_domain_guards (d : DualR) :
    (DualR.log d = .error .domainKind ↔ d.real ≤ 0) ∧
    (0 < d.real →
      DualR.log d = .ok ⟨Real.log d.real, d.dual / d.real⟩) ∧
    (DualR.sqrt d = .error .domainKind ↔ d.real < 0) ∧
    (0 ≤ d.real →
      DualR.sqrt d = .ok ⟨Real.sqrt d.real, d.dual / (2 * Real.sqrt d.real)⟩) ∧
    (DualR.acosh d = .error .domainKind ↔ d.real ≤ 1) ∧
    (1 < d.real →
      DualR.acosh d = .ok ⟨acoshFn d.real, d.dual / Real.sqrt (d.real ^ 2 - 1)⟩) ∧
    (DualR.atanh d = .error .domainKind ↔ 1 ≤ |d.real|) ∧
    (|d.real| < 1 →
      DualR.atanh d = .ok ⟨atanhFn d.real, d.dual / (1 - d.real ^ 2)⟩) := by
  refine ⟨?_, ?_, ?_, ?_, ?_, ?_, ?_, ?_⟩
  · by_cases h : d.real ≤ 0 <;> simp [DualR.log, h]
  · intro h
    simp [DualR.log, not_le.mpr h]
  · by_cases h : d.real < 0 <;> simp [DualR.sqrt, h]
  · intro h
    simp [DualR.sqrt, not_lt.mpr h]
  · by_cases h : d.real ≤ 1 <;> simp [DualR.acosh, h]
  · intro h
    simp [DualR.acosh, not_le.mpr h]
  · by_cases h : 1 ≤ |d.real| <;> simp [DualR.atanh, h]
  · intro h
    simp [DualR.atanh, not_le.mpr h]

/-- Witness for C5 at concrete inputs inside each domain: log, sqrt and
acosh at Dual(2, 3) and atanh at Dual(1/2, 3). -/
theorem C5_transcendental_domain_guards_witness :
    DualR.log ⟨2, 3⟩ = .ok ⟨Real.log 2, 3 / 2⟩ ∧
    DualR.sqrt ⟨2, 3⟩ = .ok ⟨Real.sqrt 2, 3 / (2 * Real.sqrt 2)⟩ ∧
    DualR.acosh ⟨2, 3⟩ = .ok ⟨acoshFn 2, 3 / Real.sqrt ((2 : ℝ) ^ 2 - 1)⟩ ∧
    DualR.atanh ⟨1 / 2, 3⟩ = .ok ⟨atanhFn (1 / 2), 3 / (1 - (1 / 2 : ℝ) ^ 2)⟩ :=
  ⟨(C5_transcendental_domain_guards ⟨2, 3⟩).2.1 (by norm_num),
   (C5_transcendental_domain_guards ⟨2, 3⟩).2.2.2.1 (by norm_num),
   (C5_transcendental_domain_guards ⟨2, 3⟩).2.2.2.2.2.1 (by norm_num),
   (C5_transcendental_domain_guards ⟨1 / 2, 3⟩).2.2.2.2.2.2.2
     (by rw [abs_of_nonneg] <;> norm_num)⟩

/-- C6: power with a Dual exponent — for a positive base real part the
result is the generalized-rule pair, and for a nonpositive base real part
the operation fails with the same DomainKind failure as log; a nonpositive
base with a non-integer scalar exponent fails the same way. -/
theorem C6_dual_exponent_power (a b : DualR) (p : ℝ) :
    (0 < a.real →
      DualR.powDual a b =
        .ok ⟨a.real ^ b.real,
             a.real ^ b.real *
               (b.dual * Real.log a.real + b.real * a.dual / a.real)⟩) ∧
    (a.real ≤ 0 →
      DualR.powDual a b = .error .domainKind ∧
      DualR.log a = .error .domainKind) ∧
    (a.real ≤ 0 → (∀ n : ℤ, p ≠ (n : ℝ)) →
      DualR.powScalar a p = .error .domainKind) := by
  refine ⟨?_, ?_, ?_⟩
  · intro h
    simp [DualR.powDual, not_le.mpr h]
  · intro h
    exact ⟨by simp [DualR.powDual, h], by simp [DualR.log, h]⟩
  · intro h hp
    unfold DualR.powScalar
    rw [if_pos]
    exact ⟨h, fun ⟨n, hn⟩ => hp n hn⟩

/-- Witness for C6: the generalized rule at base Dual(2, 3) and exponent
Dual(4, 5), and the DomainKind failures at the nonpositive base
Dual(-1, 3) with a Dual exponent and with the non-integer scalar exponent
one half. -/
theorem C6_dual_exponent_power_witness :
    DualR.powDual ⟨2, 3⟩ ⟨4, 5⟩ =
      .ok ⟨(2 : ℝ) ^ (4 : ℝ),
           (2 : ℝ) ^ (4 : ℝ) * (5 * Real.log 2 + 4 * 3 / 2)⟩ ∧
    DualR.powDual ⟨-1, 3⟩ ⟨4, 5⟩ = .error .domainKind ∧
    DualR.powScalar ⟨-1, 3⟩ (1 / 2) = .error .domainKind := by
  have hhalf : ∀ n : ℤ, (1 / 2 : ℝ) ≠ (n : ℝ) := by
    intro n hn
    have h2 : (1 : ℝ) = 2 * (n : ℝ) := by linarith
    have h3 : (1 : ℤ) = 2 * n := by exact_mod_cast h2
    omega
  exact ⟨(C6_dual_exponent_power ⟨2, 3⟩ ⟨4, 5⟩ 0).1 (by norm_num),
         ((C6_dual_exponent_power ⟨-1, 3⟩ ⟨4, 5⟩ 0).2.1 (by norm_num)).1,
         (C6_dual_exponent_power ⟨-1, 3⟩ ⟨4, 5⟩ (1 / 2)).2.2 (by norm_num) hhalf⟩

/-- C7: power with a scalar exponent p follows the power rule pair
(real ^ p, p * real ^ (p - 1) * dual) whenever the base real part is
positive or p is an integer; in particular raising Dual(2, 1) to the
exponent one half gives the square root of two and its derivative
0.5 / sqrt 2, each within 1e-7. -/
theorem C7_scalar_power_rule (a : DualR) (p : ℝ) :
    ((0 < a.real ∨ ∃ n : ℤ, p = (n : ℝ)) →
      DualR.powScalar a p = .ok ⟨a.real ^ p, p * a.real ^ (p - 1) * a.dual⟩) ∧
    (∃ d, DualR.powScalar ⟨2, 1⟩ (1 / 2) = .ok d ∧
      |d.real - Real.sqrt 2| ≤ 1e-7 ∧ |d.dual - 0.5 / Real.sqrt 2| ≤ 1e-7) := by
  have hrule : ∀ (a : DualR) (p : ℝ), (0 < a.real ∨ ∃ n : ℤ, p = (n : ℝ)) →
      DualR.powScalar a p = .ok ⟨a.real ^ p, p * a.real ^ (p - 1) * a.dual⟩ := by
    intro a p h
    unfold DualR.powScalar
    rw [if_neg]
    rintro ⟨h1, h2⟩
    rcases h with h | hn
    · exact absurd h1 (not_le.mpr h)
    · exact h2 hn
  refine ⟨hrule a p, ⟨(2 : ℝ) ^ ((1 : ℝ) / 2), 1 / 2 * (2 : ℝ) ^ ((1 : ℝ) / 2 - 1) * 1⟩,
          hrule ⟨2, 1⟩ (1 / 2) (Or.inl (by norm_num)), ?_, ?_⟩
  · have h : (2 : ℝ) ^ ((1 : ℝ) / 2) = Real.sqrt 2 := (Real.sqrt_eq_rpow 2).symm
    rw [h, sub_self, abs_zero]
    norm_num
  · have h1 : ((1 : ℝ) / 2 - 1) = -(1 / 2) := by norm_num
    have h2 : (2 : ℝ) ^ (-((1 : ℝ) / 2)) = (Real.sqrt 2)⁻¹ := by
      rw [Real.rpow_neg (by norm_num), Real.sqrt_eq_rpow 2]
    rw [h1, h2]
    have h3 : 1 / 2 * (Real.sqrt 2)⁻¹ * 1 = 0.5 / Real.sqrt 2 := by
      ring_nf
    rw [h3, sub_self, abs_zero]
    norm_num

/-- Witness for C7 at the concrete base Dual(2, 1) and scalar exponent
one half. -/
theorem C7_scalar_power_rule_witness :
    DualR.powScalar ⟨2, 1⟩ (1 / 2) =
      .ok ⟨(2 : ℝ) ^ ((1 : ℝ) / 2), 1 / 2 * (2 : ℝ) ^ ((1 : ℝ) / 2 - 1) * 1⟩ :=
  (C7_scalar_power_rule ⟨2, 1⟩ (1 / 2)).1 (Or.inl (by norm_num))

end DualAutodiff
